import Mathlib

/-!
Verification development for the scene-generation service
(`backend/services/scene_generator.py`).

The Python code works over loosely-typed dictionaries, so the embedding
uses a dynamic value type `Val` mirroring the Python values that flow
through this service (strings, ints, bools, None, lists, dicts).
Operations that can raise a Python exception are embedded as
`Except String` computations; the error string stands for the exception.
The remote chat-completion call is embedded as an oracle parameter
`ChatRequest → Except Unit String`: `.ok text` models a successful call
returning `text`, `.error ()` models any exception raised by the call or
while reading the response.
-/

namespace SceneGen

/-- Dynamic (Python-like) value: the value types that flow through the
scene-generator service. -/
inductive Val where
  | vStr (s : String)
  | vInt (n : Int)
  | vBool (b : Bool)
  | vNone
  | vList (xs : List Val)
  | vDict (entries : List (String × Val))

/-- A Python dict with string keys, as an association list (first match wins,
matching insertion-then-lookup behaviour for the concrete dicts used here). -/
abbrev PyDict := List (String × Val)

/-- Python truthiness (`bool(x)`) for the embedded value types. -/
def Val.truthy : Val → Bool
  | .vStr s => !s.data.isEmpty
  | .vInt n => n != 0
  | .vBool b => b
  | .vNone => false
  | .vList xs => !xs.isEmpty
  | .vDict d => !d.isEmpty

/-- Python `d.get(key, default)` on a dict: the stored value, or the default
when the key is absent.  Never raises. -/
def pyGet (d : PyDict) (key : String) (dflt : Val) : Val :=
  match d.lookup key with
  | some v => v
  | none => dflt

/-- Python `a or b`: the first operand when it is truthy, otherwise the
second operand. -/
def pyOr (a b : Val) : Val := if a.truthy then a else b

/-- Python `v.get(key, default)` where `v` is an arbitrary value: succeeds
only when `v` is a dict, otherwise raises `AttributeError`. -/
def pyDictGet (v : Val) (key : String) (dflt : Val) : Except String Val :=
  match v with
  | .vDict d => .ok (pyGet d key dflt)
  | _ => .error "AttributeError: object has no attribute get"

/-- Python `v[:n]` followed by iteration: defined for lists (the first `n`
elements) and strings (the first `n` characters, as 1-character strings);
raises `TypeError` for non-subscriptable values. -/
def pySliceTake : Val → Nat → Except String (List Val)
  | .vList xs, n => .ok (xs.take n)
  | .vStr s, n => .ok ((s.data.take n).map (fun c => Val.vStr (String.mk [c])))
  | _, _ => .error "TypeError: object is not subscriptable"

/-- Python `v <= k` for an int literal `k`: defined for ints and bools
(`True` counts as 1, `False` as 0); raises `TypeError` otherwise. -/
def pyLeInt (v : Val) (k : Int) : Except String Bool :=
  match v with
  | .vInt n => .ok (decide (n ≤ k))
  | .vBool b => .ok (decide ((if b then (1 : Int) else 0) ≤ k))
  | _ => .error "TypeError: unsupported comparison between str and int"

/-- Python `sep.join(pieces)` for a list of strings (empty list gives `""`). -/
def pyJoin (sep : String) : List String → String
  | [] => ""
  | [s] => s
  | s :: rest => s ++ sep ++ pyJoin sep rest

/-- Requires every element of a Python sequence to be a `str` (as
`sep.join` does); raises `TypeError` at the first non-string element. -/
def pyStrSeq : List Val → Except String (List String)
  | [] => .ok []
  | .vStr s :: rest =>
    match pyStrSeq rest with
    | .error e => .error e
    | .ok tl => .ok (s :: tl)
  | _ :: _ => .error "TypeError: sequence item is not str"

/-- Python `s.capitalize()`: first character upper-cased, the rest
lower-cased; raises `AttributeError` on non-strings. -/
def pyCapitalize : Val → Except String String
  | .vStr s =>
    .ok (match s.data with
      | [] => ""
      | c :: cs => String.mk (c.toUpper :: cs.map Char.toLower))
  | _ => .error "AttributeError: object has no attribute capitalize"

mutual

/-- Python `repr(v)` (used when containers are rendered inside f-strings).
Quote placement inside reprs of strings is simplified to plain single
quotes; no claim depends on container rendering. -/
def pyRepr : Val → String
  | .vStr s => "\x27" ++ s ++ "\x27"
  | .vInt n => toString n
  | .vBool b => cond b "True" "False"
  | .vNone => "None"
  | .vList xs => "[" ++ pyReprSeq xs ++ "]"
  | .vDict d => "\x7b" ++ pyReprEntries d ++ "\x7d"

/-- Comma-separated reprs of the elements of a list. -/
def pyReprSeq : List Val → String
  | [] => ""
  | [v] => pyRepr v
  | v :: rest => pyRepr v ++ ", " ++ pyReprSeq rest

/-- Comma-separated `key: value` reprs of the entries of a dict. -/
def pyReprEntries : List (String × Val) → String
  | [] => ""
  | [(k, v)] => "\x27" ++ k ++ "\x27: " ++ pyRepr v
  | (k, v) :: rest => "\x27" ++ k ++ "\x27: " ++ pyRepr v ++ ", " ++ pyReprEntries rest

end

/-- Python `str(v)` as used by f-string substitution. -/
def pyStr : Val → String
  | .vStr s => s
  | .vInt n => toString n
  | .vBool b => cond b "True" "False"
  | .vNone => "None"
  | .vList xs => "[" ++ pyReprSeq xs ++ "]"
  | .vDict d => "\x7b" ++ pyReprEntries d ++ "\x7d"

/-- Characters stripped by Python `str.strip()` (ASCII whitespace). -/
def pyIsSpace (c : Char) : Bool :=
  c = ' ' || c = '\t' || c = '\n' || c = '\r' || c = '\x0b' || c = '\x0c'

/-- Python `s.strip()`: remove leading and trailing whitespace. -/
def pyStrip (s : String) : String :=
  String.mk (((s.data.dropWhile pyIsSpace).reverse.dropWhile pyIsSpace).reverse)

/-- Python `s.endswith(suffix)`. -/
def pyEndsWith (s suffix : String) : Bool :=
  suffix.data.reverse.isPrefixOf s.data.reverse

/-- Splitter for `generated_text.split(". ")`: left-to-right,
non-overlapping occurrences of the two-character separator, keeping empty
pieces, over the character list.  `acc` holds the current piece reversed. -/
def pySplitPSAux (acc : List Char) : List Char → List (List Char)
  | [] => [acc.reverse]
  | [c] => [(c :: acc).reverse]
  | c1 :: c2 :: rest =>
    if c1 = '.' ∧ c2 = ' ' then acc.reverse :: pySplitPSAux [] rest
    else pySplitPSAux (c1 :: acc) (c2 :: rest)

/-- Python `s.split(". ")`: split on the literal period-space separator. -/
def pySplitPeriodSpace (s : String) : List String :=
  (pySplitPSAux [] s.data).map String.mk

/-- The fixed f-string template of `build_scene_generator_prompt`, with each
f-string placeholder already rendered to a plain string argument. -/
def scene_prompt_template (scene_type location_name location_role location_summary products_text time_of_day weather character_name character_level experience_level character_background character_class wanted_text hooks_header hooks_block threat_header threat_block : String) : String :=
  "UNIFIED DM SYSTEM PROMPT v6.0 (Scene Generation Mode)\n" ++
  "\n" ++
  "🚨🚨🚨 CRITICAL FAILURE CONDITIONS - YOU WILL FAIL IF: 🚨🚨🚨\n" ++
  "1. You don\x27t give EXACTLY 3 directions: left, right, and ahead\n" ++
  "2. You use flowery language or banned AI phrases\n" ++
  "3. You write more than 8 sentences\n" ++
  "4. You use third person or omniscient narration\n" ++
  "\n" ++
  "COUNT YOUR DIRECTIONS BEFORE RESPONDING: Must be LEFT + RIGHT + AHEAD = 3\n" ++
  "\n" ++
  "\x2d\x2d\x2d\n" ++
  "\n" ++
  "SCENE TYPE: " ++ scene_type ++ "\n" ++
  "- arrival: First time entering location\n" ++
  "- return: Returning to previously visited location\n" ++
  "- transition: Moving from one area to another within same location\n" ++
  "- time_skip: Same location, time has passed\n" ++
  "\n" ++
  "\x2d\x2d\x2d\n" ++
  "\n" ++
  "LOCATION CONTEXT:\n" ++
  "- Name: " ++ location_name ++ "\n" ++
  "- Role: " ++ location_role ++ "\n" ++
  "- Base Description: " ++ location_summary ++ "\n" ++
  "- Known For: " ++ products_text ++ "\n" ++
  "- Time: " ++ time_of_day ++ "\n" ++
  "- Weather: " ++ weather ++ "\n" ++
  "\n" ++
  "CHARACTER CONTEXT:\n" ++
  "- Name: " ++ character_name ++ "\n" ++
  "- Level: " ++ character_level ++ " (" ++ experience_level ++ ")\n" ++
  "- Background: " ++ character_background ++ "\n" ++
  "- Class: " ++ character_class ++ "\n" ++
  "- Wanted/Hostile: " ++ wanted_text ++ "\n" ++
  "\n" ++
  hooks_header ++ "\n" ++
  hooks_block ++ "\n" ++
  "\n" ++
  threat_header ++ "\n" ++
  threat_block ++ "\n" ++
  "\n" ++
  "\x2d\x2d\x2d\n" ++
  "\n" ++
  "v4.1 NARRATION RULES:\n" ++
  "\n" ++
  "POV Discipline:\n" ++
  "✅ Use second person (\"you\") ONLY\n" ++
  "✅ Describe ONLY what the player can see, hear, smell, feel\n" ++
  "❌ NEVER use omniscient narration\n" ++
  "❌ NEVER describe NPC thoughts or hidden information\n" ++
  "❌ NEVER use third person\n" ++
  "\n" ++
  "Sentence Limits:\n" ++
  "- Travel/Scene description: 4–8 sentences (v4.1 spec)\n" ++
  "- Max 2 sensory details per sentence\n" ++
  "- No repeated adjectives\n" ++
  "- No over-description\n" ++
  "\n" ++
  "\x2d\x2d\x2d\n" ++
  "\n" ++
  "OUTPUT REQUIREMENTS:\n" ++
  "- Write 4-8 sentences TOTAL\n" ++
  "- Sentence 1: Sensory detail (sight/sound) appropriate to time/weather\n" ++
  "- Sentences 2-4: **SPATIAL EXPLORATION CUES (YOU WILL FAIL IF YOU DON\x27T DO THIS):**\n" ++
  "  * SENTENCE 2: \"To your left, [location/NPC].\"\n" ++
  "  * SENTENCE 3: \"To your right, [location/NPC].\"\n" ++
  "  * SENTENCE 4: \"Straight ahead, [location/NPC].\" OR \"Ahead of you, [location/NPC].\"\n" ++
  "  * YOU MUST USE ALL THREE DIRECTIONS OR YOU FAIL\n" ++
  "  * Each must be a separate sentence starting with the direction\n" ++
  "- Sentences 5-8: Short, direct arrival (NO flowery language, NO metaphors, NO invented emotions)\n" ++
  "\n" ++
  "\x2d\x2d\x2d\n" ++
  "\n" ++
  "STYLE RULES:\n" ++
  "- Use second person (\"You arrive...\")\n" ++
  "- **MANDATORY: Give exactly 3 spatial directions (left, right, ahead/center/straight)**\n" ++
  "- Show don\x27t tell - NO metaphors, NO invented emotions\n" ++
  "- Short, direct sentences (max 15 words)\n" ++
  "- Make quest hooks subtle (environmental clues, NPC behavior, overheard fragments)\n" ++
  "- Match time of day (morning: fresh activity, night: quieter, shadowy)\n" ++
  "- Simple, clear language: \"You arrive in town\" NOT \"You step into this hub of mystery\"\n" ++
  "\n" ++
  "\x2d\x2d\x2d\n" ++
  "\n" ++
  "BANNED PHRASES (v4.1 spec):\n" ++
  "❌ \"you notice\", \"you feel a sense\", \"it seems that\", \"uncertainty dances\"\n" ++
  "❌ \"shadows linger\", \"whispers of\", \"feeling like a gamble\", \"beyond sight\"\n" ++
  "❌ \"mysterious presence\", \"tendrils of darkness\", \"shrouded in mystery\"\n" ++
  "❌ \"emerge from\", \"filters through\", \"thick with opportunity\"\n" ++
  "✅ Use concrete nouns: \"tavern\", \"market\", \"guard post\", \"alley\", \"blacksmith\"\n" ++
  "\n" ++
  "\x2d\x2d\x2d\n" ++
  "\n" ++
  "EXAMPLES:\n" ++
  "\n" ++
  "✅ PERFECT EXAMPLE (COUNT THE DIRECTIONS - MUST BE 3):\n" ++
  "\"You enter Darkeroot as midday sun warms the streets. To your left, a blacksmith hammers at his forge. To your right, the Rusty Blade tavern door stands open. Straight ahead, the town square has market stalls. You walk into town.\"\n" ++
  "\n" ++
  "Structure breakdown:\n" ++
  "- Sentence 1: \"You enter... sun warms...\" (arrival + sensory)\n" ++
  "- Sentence 2: \"To your left, blacksmith...\" (LEFT)\n" ++
  "- Sentence 3: \"To your right, tavern...\" (RIGHT)  \n" ++
  "- Sentence 4: \"Straight ahead, market...\" (AHEAD)\n" ++
  "- Sentence 5: \"You walk...\" (simple arrival)\n" ++
  "\n" ++
  "✅ GOOD (wanted status, 3 directions):\n" ++
  "\"You return to Fort Dawnlight as evening falls. To your left, guards at the gate eye passing travelers. To your right, an alley leads toward the docks. Ahead, the main road runs through the market district. You pull your hood low and walk quickly.\"\n" ++
  "\n" ++
  "❌ BAD (only 1 direction, flowery language):\n" ++
  "\"You arrive in Darkeroot where shadows dance and mystery lingers. To your right, an alleyway beckons with whispered secrets. Uncertainty dances in your chest as you take your first tentative steps into this hub of intrigue.\" \n" ++
  "← WRONG: Only one direction, uses \"dances\", \"whispered secrets\", \"uncertainty\", invented emotions\n" ++
  "\n" ++
  "\x2d\x2d\x2d\n" ++
  "\n" ++
  "CRITICAL REMINDERS:\n" ++
  "1. ✅ Is this second person POV?\n" ++
  "2. ✅ Did I give EXACTLY 3 spatial directions (left, right, ahead)?\n" ++
  "3. ✅ Is my sentence count 4-8?\n" ++
  "4. ✅ Did I avoid banned phrases?\n" ++
  "5. ✅ Did I avoid inventing player emotions?\n" ++
  "\n" ++
  "Generate scene description now:"

/-- Line 146 of the source: `"inexperienced" if character_level <= 3 else
"seasoned" if character_level <= 7 else "legendary"`.  The comparisons can
raise a `TypeError` when the level is not comparable with an int. -/
def experience_level_of (character_level : Val) : Except String String :=
  match pyLeInt character_level 3 with
  | .error e => .error e
  | .ok true => .ok "inexperienced"
  | .ok false =>
    match pyLeInt character_level 7 with
    | .error e => .error e
    | .ok true => .ok "seasoned"
    | .ok false => .ok "legendary"

/-- One iteration of the quest-hook loop: `hook.get("type", "conversation")`,
`hook.get("description", "")`, and the f-string
`f"- \x7bhook_type.capitalize()\x7d: \x7bhook_desc\x7d"`. -/
def hook_line (hook : Val) : Except String String :=
  match pyDictGet hook "type" (Val.vStr "conversation") with
  | .error e => .error e
  | .ok hook_type =>
    match pyDictGet hook "description" (Val.vStr "") with
    | .error e => .error e
    | .ok hook_desc =>
      match pyCapitalize hook_type with
      | .error e => .error e
      | .ok cap => .ok ("- " ++ cap ++ ": " ++ pyStr hook_desc)

/-- The quest-hook loop body applied to each hook in order, stopping at the
first raised exception, as the Python `for` loop does. -/
def hook_lines : List Val → Except String (List String)
  | [] => .ok []
  | h :: rest =>
    match hook_line h with
    | .error e => .error e
    | .ok line =>
      match hook_lines rest with
      | .error e => .error e
      | .ok tl => .ok (line :: tl)

/-- Lines 149-157 of the source: `hooks_text` starts as `""`; when
`quest_hooks` is truthy, the first 2 hooks are formatted and joined with
newlines. -/
def hooks_text_of (quest_hooks : Val) : Except String String :=
  if quest_hooks.truthy then
    match pySliceTake quest_hooks 2 with
    | .error e => .error e
    | .ok hs =>
      match hook_lines hs with
      | .error e => .error e
      | .ok lines => .ok (pyJoin "\n" lines)
  else .ok ""

/-- Line 160 of the source:
`", ".join(signature_products[:3]) if signature_products else "various goods"`. -/
def products_text_of (signature_products : Val) : Except String String :=
  if signature_products.truthy then
    match pySliceTake signature_products 3 with
    | .error e => .error e
    | .ok ps =>
      match pyStrSeq ps with
      | .error e => .error e
      | .ok ss => .ok (pyJoin ", " ss)
  else .ok "various goods"

/-- The threat-context slot of the template:
`chr(10).join([f"- \x7bsign\x7d" for sign in early_signs[:2]]) if early_signs else ""`. -/
def early_signs_block_of (early_signs : Val) : Except String String :=
  if early_signs.truthy then
    match pySliceTake early_signs 2 with
    | .error e => .error e
    | .ok signs => .ok (pyJoin "\n" (signs.map (fun sign => "- " ++ pyStr sign)))
  else .ok ""

/-- `build_scene_generator_prompt` from the source: derives the experience
tier, formats quest hooks (first 2), signature products (first 3, or
"various goods" when the list is falsy) and early signs (first 2), and
substitutes everything into the fixed template.  The `reputation` parameter
is accepted but never used by the template, exactly as in the source. -/
def build_scene_generator_prompt (scene_type location_name location_role location_summary signature_products character_name character_level character_background character_class time_of_day weather is_wanted reputation early_signs quest_hooks : Val) : Except String String :=
  match experience_level_of character_level with
  | .error e => .error e
  | .ok experience_level =>
    match hooks_text_of quest_hooks with
    | .error e => .error e
    | .ok hooks_text =>
      match products_text_of signature_products with
      | .error e => .error e
      | .ok products_text =>
        match early_signs_block_of early_signs with
        | .error e => .error e
        | .ok threat_block =>
          .ok (scene_prompt_template (pyStr scene_type) (pyStr location_name)
            (pyStr location_role) (pyStr location_summary) products_text
            (pyStr time_of_day) (pyStr weather) (pyStr character_name)
            (pyStr character_level) experience_level (pyStr character_background)
            (pyStr character_class)
            (if is_wanted.truthy then "YES - guards watching" else "No")
            (if quest_hooks.truthy then "AVAILABLE QUEST HOOKS (weave 1-2 subtly into description):" else "")
            (if quest_hooks.truthy then hooks_text else "")
            (if early_signs.truthy then "THREAT CONTEXT (include 1 subtle sign):" else "")
            threat_block)

/-- The values extracted (with defaults) from the four context mappings in
lines 35-57 of `generate_scene_description`, in source order. -/
structure SceneContext where
  location_name : Val
  location_role : Val
  location_summary : Val
  signature_products : Val
  character_name : Val
  character_level : Val
  character_background : Val
  character_class : Val
  time_of_day : Val
  weather : Val
  reputation : Val
  is_wanted : Val
  early_signs : Val
  quest_hooks : Val

/-- Lines 35-57 of `generate_scene_description`: quest-hook defaulting
(`if not available_quest_hooks: available_quest_hooks = []`), the
`.get(key, default)` extraction of every field, `is_wanted` as the `or` of
the two hostility flags, and
`world_blueprint.get("global_threat", {}).get("early_signs_near_starting_town", [])`,
whose second `.get` raises when the stored `global_threat` value is not a
dict. -/
def extract_scene_context (location character_state world_state world_blueprint : PyDict) (available_quest_hooks : Val) : Except String SceneContext :=
  let quest_hooks := if available_quest_hooks.truthy then available_quest_hooks else Val.vList []
  let global_threat := pyGet world_blueprint "global_threat" (Val.vDict [])
  match pyDictGet global_threat "early_signs_near_starting_town" (Val.vList []) with
  | .error e => .error e
  | .ok early_signs =>
    .ok {
      location_name := pyGet location "name" (Val.vStr "Unknown"),
      location_role := pyGet location "role" (Val.vStr "settlement"),
      location_summary := pyGet location "summary" (Val.vStr "A mysterious place"),
      signature_products := pyGet location "signature_products" (Val.vList []),
      character_name := pyGet character_state "name" (Val.vStr "Adventurer"),
      character_level := pyGet character_state "level" (Val.vInt 1),
      character_background := pyGet character_state "background" (Val.vStr "wanderer"),
      character_class := pyGet character_state "class" (pyGet character_state "class_" (Val.vStr "unknown")),
      time_of_day := pyGet world_state "time_of_day" (Val.vStr "midday"),
      weather := pyGet world_state "weather" (Val.vStr "clear"),
      reputation := pyGet character_state "reputation" (Val.vDict []),
      is_wanted := pyOr (pyGet world_state "guards_hostile" (Val.vBool false)) (pyGet world_state "city_hostile" (Val.vBool false)),
      early_signs := early_signs,
      quest_hooks := quest_hooks }

/-- The chat-completion request issued inside the `try` block: model name,
`[system, user]` messages as (role, content) pairs, sampling temperature and
token cap. -/
structure ChatRequest where
  model : String
  messages : List (String × String)
  temperature : ℚ
  max_tokens : Nat

/-- Lines 80-88 of the source: the single `client.chat.completions.create`
request, with the rendered prompt as the system message and the
scene-type/location user message. -/
def scene_request (prompt : String) (scene_type location_name : Val) : ChatRequest :=
  { model := "gpt-4o-mini",
    messages := [("system", prompt),
      ("user", "Generate scene description for " ++ pyStr scene_type ++ " at " ++ pyStr location_name)],
    temperature := 7/10,
    max_tokens := 300 }

/-- The dict returned by `generate_scene_description`:
`location` and `description` carry whatever values flowed in (the fallback
copies `location_summary` unchanged), `why_here` is always built by string
formatting. -/
structure SceneResult where
  location : Val
  description : Val
  why_here : String

/-- Lines 90-114 of the source (success path): strip the returned text,
split on `". "`; with 2 or more pieces, rejoin all but the last as the
description (plus a trailing period) and use the stripped last piece as
`why_here`, appending a period when missing; otherwise use the whole text
as description and a synthesized `why_here` naming the location. -/
def parse_scene_response (location_name : Val) (content : String) : SceneResult :=
  let generated_text := pyStrip content
  let sentences := pySplitPeriodSpace generated_text
  if 2 ≤ sentences.length then
    let description := pyJoin ". " sentences.dropLast ++ "."
    let why_here0 := pyStrip (sentences.getLastD "")
    let why_here := if pyEndsWith why_here0 "." then why_here0 else why_here0 ++ "."
    { location := location_name, description := Val.vStr description, why_here := why_here }
  else
    { location := location_name, description := Val.vStr generated_text,
      why_here := "You arrive in " ++ pyStr location_name ++ ", ready for whatever awaits." }

/-- Lines 116-123 of the source (`except Exception`): the deterministic
fallback result. -/
def fallback_scene_result (location_name location_summary : Val) : SceneResult :=
  { location := location_name, description := location_summary,
    why_here := "You have arrived in " ++ pyStr location_name ++ " seeking adventure and fortune. The world awaits your choices." }

/-- The keyword-argument call of `build_scene_generator_prompt` at lines
59-76 of the source, reading each argument from the extracted context. -/
def build_prompt_of (scene_type : Val) (ctx : SceneContext) : Except String String :=
  build_scene_generator_prompt scene_type ctx.location_name ctx.location_role
    ctx.location_summary ctx.signature_products ctx.character_name
    ctx.character_level ctx.character_background ctx.character_class
    ctx.time_of_day ctx.weather ctx.is_wanted ctx.reputation ctx.early_signs
    ctx.quest_hooks

/-- `generate_scene_description` from the source.  Field extraction and
prompt construction run before the `try` block, so their exceptions
propagate as `.error`.  The remote call is the oracle applied to the
constructed request; a successful call is parsed by the success path, and
any call/parse failure is caught and replaced by the fallback result. -/
def generate_scene_description (scene_type : Val) (location character_state world_state world_blueprint : PyDict) (available_quest_hooks : Val) (oracle : ChatRequest → Except Unit String) : Except String SceneResult :=
  match extract_scene_context location character_state world_state world_blueprint available_quest_hooks with
  | .error e => .error e
  | .ok ctx =>
    match build_prompt_of scene_type ctx with
    | .error e => .error e
    | .ok prompt =>
      match oracle (scene_request prompt scene_type ctx.location_name) with
      | .ok content => .ok (parse_scene_response ctx.location_name content)
      | .error _ => .ok (fallback_scene_result ctx.location_name ctx.location_summary)

/-- Whether a dynamic value is a non-empty string. -/
def val_nonempty_string : Val → Bool
  | .vStr s => !s.data.isEmpty
  | _ => false

/-- The well-formedness property claimed of every result: non-empty string
`location`, non-empty string `description`, and `why_here` ending in a
period. -/
def scene_result_well_formed (r : SceneResult) : Bool :=
  val_nonempty_string r.location && val_nonempty_string r.description &&
    pyEndsWith r.why_here "."

/-- Whether a character list contains the two-character separator `". "`
(period followed by space). -/
def containsPeriodSpace : List Char → Bool
  | [] => false
  | [_] => false
  | c1 :: c2 :: rest =>
    if c1 = '.' ∧ c2 = ' ' then true else containsPeriodSpace (c2 :: rest)

/-- The context extracted when every optional field is absent: each field is
the literal default of the source (`"Unknown"`, `"settlement"`,
`"A mysterious place"`, empty products, `"Adventurer"`, level 1,
`"wanderer"`, `"unknown"` class, `"midday"`, `"clear"`, empty reputation,
not wanted, no early signs, no quest hooks). -/
def default_scene_context : SceneContext :=
  { location_name := Val.vStr "Unknown",
    location_role := Val.vStr "settlement",
    location_summary := Val.vStr "A mysterious place",
    signature_products := Val.vList [],
    character_name := Val.vStr "Adventurer",
    character_level := Val.vInt 1,
    character_background := Val.vStr "wanderer",
    character_class := Val.vStr "unknown",
    time_of_day := Val.vStr "midday",
    weather := Val.vStr "clear",
    reputation := Val.vDict [],
    is_wanted := Val.vBool false,
    early_signs := Val.vList [],
    quest_hooks := Val.vList [] }

/-- The prompt rendered for an all-defaults context with scene type
`"arrival"`. -/
def scene_prompt_default : String :=
  scene_prompt_template (pyStr (Val.vStr "arrival")) (pyStr (Val.vStr "Unknown"))
    (pyStr (Val.vStr "settlement")) (pyStr (Val.vStr "A mysterious place"))
    "various goods" (pyStr (Val.vStr "midday")) (pyStr (Val.vStr "clear"))
    (pyStr (Val.vStr "Adventurer")) (pyStr (Val.vInt 1)) "inexperienced"
    (pyStr (Val.vStr "wanderer")) (pyStr (Val.vStr "unknown")) "No" "" "" "" ""

/-- The side condition under which the result fields are non-empty: on a
successful remote call, the stripped returned text is non-empty; on a
failed call, the extracted location summary is a non-empty string. -/
def nonempty_source (loc : PyDict) : Except Unit String → Bool
  | .ok t => !(pyStrip t).data.isEmpty
  | .error _ => val_nonempty_string (pyGet loc "summary" (Val.vStr "A mysterious place"))

theorem string_data_append (a b : String) : (a ++ b).data = a.data ++ b.data := rfl

theorem pyEndsWith_dot_append (s t : String) (h : pyEndsWith t "." = true) :
    pyEndsWith (s ++ t) "." = true := by
  unfold pyEndsWith at h ⊢
  rw [string_data_append, List.reverse_append]
  cases ht : t.data.reverse with
  | nil => rw [ht] at h; simp [List.isPrefixOf] at h
  | cons c l =>
    rw [ht] at h
    simp only [List.isPrefixOf, List.cons_append, Bool.and_eq_true] at h ⊢
    exact ⟨h.1, trivial⟩

theorem pyEndsWith_append_dot (s : String) : pyEndsWith (s ++ ".") "." = true :=
  pyEndsWith_dot_append s "." rfl

theorem val_nonempty_append_dot (s : String) :
    val_nonempty_string (Val.vStr (s ++ ".")) = true := by
  simp [val_nonempty_string, string_data_append]

theorem string_mk_data (s : String) : String.mk s.data = s := rfl

theorem extract_ok_fields {loc ch ws bp : PyDict} {qh : Val} {ctx : SceneContext}
    (h : extract_scene_context loc ch ws bp qh = .ok ctx) :
    ctx.location_name = pyGet loc "name" (Val.vStr "Unknown") ∧
    ctx.location_summary = pyGet loc "summary" (Val.vStr "A mysterious place") ∧
    ctx.is_wanted = pyOr (pyGet ws "guards_hostile" (Val.vBool false))
      (pyGet ws "city_hostile" (Val.vBool false)) := by
  simp only [extract_scene_context] at h
  cases hm : pyDictGet (pyGet bp "global_threat" (Val.vDict []))
      "early_signs_near_starting_town" (Val.vList []) with
  | error e => rw [hm] at h; cases h
  | ok es => rw [hm] at h; injection h with h; subst h; exact ⟨rfl, rfl, rfl⟩

theorem parse_location (ln : Val) (t : String) :
    (parse_scene_response ln t).location = ln := by
  simp only [parse_scene_response]
  split <;> rfl

theorem parse_why_here_period (ln : Val) (t : String) :
    pyEndsWith (parse_scene_response ln t).why_here "." = true := by
  simp only [parse_scene_response]
  split
  · split
    · assumption
    · exact pyEndsWith_append_dot _
  · exact pyEndsWith_dot_append _ _ rfl

theorem parse_description_nonempty (ln : Val) (t : String)
    (h : (pyStrip t).data.isEmpty = false) :
    val_nonempty_string (parse_scene_response ln t).description = true := by
  simp only [parse_scene_response]
  split
  · exact val_nonempty_append_dot _
  · simpa [val_nonempty_string] using h

theorem fallback_why_here_period (ln ls : Val) :
    pyEndsWith (fallback_scene_result ln ls).why_here "." = true :=
  pyEndsWith_dot_append _ _ rfl

theorem pySplitPSAux_no_sep (acc l : List Char)
    (h : containsPeriodSpace l = false) :
    pySplitPSAux acc l = [acc.reverse ++ l] := by
  induction acc, l using pySplitPSAux.induct with
  | case1 acc => simp [pySplitPSAux]
  | case2 acc c => simp [pySplitPSAux]
  | case3 acc c1 c2 rest hcond =>
    rw [containsPeriodSpace, if_pos hcond] at h
    cases h
  | case4 acc c1 c2 rest hcond ih =>
    rw [containsPeriodSpace, if_neg hcond] at h
    rw [pySplitPSAux, if_neg hcond, ih h]
    simp

theorem pySplit_no_sep (s : String) (h : containsPeriodSpace s.data = false) :
    pySplitPeriodSpace s = [s] := by
  unfold pySplitPeriodSpace
  rw [pySplitPSAux_no_sep [] s.data h]
  simp [string_mk_data]

theorem truthy_vList_take (n : Nat) (hn : 0 < n) (xs : List Val) :
    (Val.vList (xs.take n)).truthy = (Val.vList xs).truthy := by
  cases xs with
  | nil => simp
  | cons x t =>
    cases n with
    | zero => omega
    | succ m => simp [Val.truthy]

theorem hooks_text_take (qs : List Val) :
    hooks_text_of (Val.vList (qs.take 2)) = hooks_text_of (Val.vList qs) := by
  unfold hooks_text_of
  rw [truthy_vList_take 2 (by omega)]
  simp [pySliceTake, List.take_take]

theorem products_text_take (ps : List Val) :
    products_text_of (Val.vList (ps.take 3)) = products_text_of (Val.vList ps) := by
  unfold products_text_of
  rw [truthy_vList_take 3 (by omega)]
  simp [pySliceTake, List.take_take]

theorem early_signs_block_take (es : List Val) :
    early_signs_block_of (Val.vList (es.take 2)) = early_signs_block_of (Val.vList es) := by
  unfold early_signs_block_of
  rw [truthy_vList_take 2 (by omega)]
  simp [pySliceTake, List.take_take]

/-- C1 (amended): whenever `generate_scene_description` returns a result
(the pre-call phase did not raise), `why_here` ends with a period; the
`location` and `description` fields are moreover non-empty strings provided
the extracted location name is a non-empty string and, on a successful
remote call, the stripped returned text is non-empty, or, on a failed
remote call, the extracted summary is a non-empty string.  (The unamended
claim — non-emptiness unconditionally — is refuted by
`generate_wellformedness_counterexample`.) -/
theorem generate_wellformedness_amended
    (st : Val) (loc ch ws bp : PyDict) (qh : Val) (outcome : Except Unit String)
    (r : SceneResult)
    (h : generate_scene_description st loc ch ws bp qh (fun _ => outcome) = .ok r) :
    pyEndsWith r.why_here "." = true ∧
    (val_nonempty_string (pyGet loc "name" (Val.vStr "Unknown")) = true →
      nonempty_source loc outcome = true →
      val_nonempty_string r.location = true ∧ val_nonempty_string r.description = true) := by
  revert h
  simp only [generate_scene_description]
  cases hctx : extract_scene_context loc ch ws bp qh with
  | error e => intro h; simp at h
  | ok ctx =>
    cases hb : build_prompt_of st ctx with
    | error e => intro h; simp [hb] at h
    | ok p =>
      obtain ⟨hname, hsummary, _⟩ := extract_ok_fields hctx
      cases outcome with
      | ok t =>
        intro h
        simp only [hb, Except.ok.injEq] at h
        subst h
        refine ⟨parse_why_here_period _ _, fun h1 h2 => ⟨?_, ?_⟩⟩
        · rw [parse_location, hname]; exact h1
        · refine parse_description_nonempty _ _ ?_
          simpa [nonempty_source] using h2
      | error u =>
        intro h
        simp only [hb, Except.ok.injEq] at h
        subst h
        refine ⟨fallback_why_here_period _ _, fun h1 h2 => ⟨?_, ?_⟩⟩
        · show val_nonempty_string ctx.location_name = true
          rw [hname]; exact h1
        · show val_nonempty_string ctx.location_summary = true
          rw [hsummary]; exact h2

/-- C1 counterexample: with a location whose `name` field is the empty
string and a remote call returning the empty string, the result has an
empty `location` and an empty `description`, so the claimed unconditional
well-formedness (non-empty location and description) is false. -/
theorem generate_wellformedness_counterexample :
    Except.map scene_result_well_formed
      (generate_scene_description (Val.vStr "arrival") [("name", Val.vStr "")] [] [] []
        Val.vNone (fun _ => Except.ok "")) = Except.ok false := rfl

/-- C1 witness: the amended theorem at a concrete input. -/
theorem generate_wellformedness_witness :
    pyEndsWith "C." "." = true ∧
    (val_nonempty_string (Val.vStr "Riverton") = true ∧
      val_nonempty_string (Val.vStr "A. B.") = true) :=
  have h := generate_wellformedness_amended (Val.vStr "arrival")
    [("name", Val.vStr "Riverton")] [] [] [] Val.vNone (Except.ok "A. B. C.")
    ⟨Val.vStr "Riverton", Val.vStr "A. B.", "C."⟩ (by rfl)
  ⟨h.1, h.2 (by decide) (by decide)⟩

/-- C2: if the remote call raises, the result is exactly the deterministic
fallback: `location` is the extracted name, `description` is the input
location's summary field (the literal "A mysterious place" when absent, by
definition of `pyGet`), and `why_here` is the fixed templated sentence
naming the location.  No error is surfaced and no partial result is
returned. -/
theorem generate_remote_failure_fallback
    (st : Val) (loc ch ws bp : PyDict) (qh : Val)
    (h : ∃ ctx p, extract_scene_context loc ch ws bp qh = .ok ctx ∧
      build_prompt_of st ctx = .ok p) :
    generate_scene_description st loc ch ws bp qh (fun _ => Except.error ()) =
      Except.ok
        { location := pyGet loc "name" (Val.vStr "Unknown")
          description := pyGet loc "summary" (Val.vStr "A mysterious place")
          why_here := "You have arrived in " ++ pyStr (pyGet loc "name" (Val.vStr "Unknown")) ++
            " seeking adventure and fortune. The world awaits your choices." } := by
  obtain ⟨ctx, p, hctx, hp⟩ := h
  obtain ⟨hname, hsummary, _⟩ := extract_ok_fields hctx
  simp only [generate_scene_description, hctx, hp, fallback_scene_result, hname, hsummary]

/-- C2 witness: the fallback at a concrete input. -/
theorem generate_remote_failure_fallback_witness :
    generate_scene_description (Val.vStr "return")
      [("name", Val.vStr "Riverton"), ("summary", Val.vStr "A river town.")] [] [] []
      Val.vNone (fun _ => Except.error ()) =
      Except.ok
        { location := Val.vStr "Riverton"
          description := Val.vStr "A river town."
          why_here := "You have arrived in Riverton seeking adventure and fortune. The world awaits your choices." } :=
  generate_remote_failure_fallback _ _ _ _ _ _ ⟨_, _, rfl, rfl⟩

/-- C3: on success, when the stripped text splits on `". "` into 2 or more
pieces, the description is all pieces but the last rejoined with `". "`
plus a trailing period, and `why_here` is the last piece stripped, with a
period appended exactly when it does not already end with one. -/
theorem generate_success_multi_sentence_split
    (st : Val) (loc ch ws bp : PyDict) (qh : Val) (ctx : SceneContext) (t : String)
    (hctx : extract_scene_context loc ch ws bp qh = .ok ctx)
    (hp : ∃ p, build_prompt_of st ctx = .ok p)
    (hlen : 2 ≤ (pySplitPeriodSpace (pyStrip t)).length) :
    generate_scene_description st loc ch ws bp qh (fun _ => Except.ok t) =
      Except.ok
        { location := ctx.location_name
          description := Val.vStr (pyJoin ". " (pySplitPeriodSpace (pyStrip t)).dropLast ++ ".")
          why_here :=
            if pyEndsWith (pyStrip ((pySplitPeriodSpace (pyStrip t)).getLastD "")) "." then
              pyStrip ((pySplitPeriodSpace (pyStrip t)).getLastD "")
            else pyStrip ((pySplitPeriodSpace (pyStrip t)).getLastD "") ++ "." } := by
  obtain ⟨p, hp⟩ := hp
  simp only [generate_scene_description, hctx, hp, parse_scene_response]
  rw [if_pos hlen]

/-- C3 witness: remote output "A. B. C." yields description "A. B." and
why_here "C.". -/
theorem generate_success_multi_sentence_split_witness :
    generate_scene_description (Val.vStr "arrival") [] [] [] [] Val.vNone
      (fun _ => Except.ok "A. B. C.") =
      Except.ok
        { location := Val.vStr "Unknown"
          description := Val.vStr "A. B."
          why_here := "C." } :=
  generate_success_multi_sentence_split (Val.vStr "arrival") [] [] [] [] Val.vNone
    default_scene_context "A. B. C." (by rfl) ⟨_, rfl⟩ (by decide)

/-- C4: on success, when the stripped text contains no `". "` separator,
the description is the entire stripped text and `why_here` is the
synthesized generic sentence naming the location. -/
theorem generate_success_single_sentence
    (st : Val) (loc ch ws bp : PyDict) (qh : Val) (ctx : SceneContext) (t : String)
    (hctx : extract_scene_context loc ch ws bp qh = .ok ctx)
    (hp : ∃ p, build_prompt_of st ctx = .ok p)
    (h : containsPeriodSpace (pyStrip t).data = false) :
    generate_scene_description st loc ch ws bp qh (fun _ => Except.ok t) =
      Except.ok
        { location := ctx.location_name
          description := Val.vStr (pyStrip t)
          why_here := "You arrive in " ++ pyStr ctx.location_name ++ ", ready for whatever awaits." } := by
  obtain ⟨p, hp⟩ := hp
  have hs := pySplit_no_sep (pyStrip t) h
  simp only [generate_scene_description, hctx, hp, parse_scene_response, hs,
    List.length_singleton]
  rw [if_neg (by omega)]

/-- C4 witness: remote output "OneSentenceOnly" is used whole as the
description, with the synthesized why_here. -/
theorem generate_success_single_sentence_witness :
    generate_scene_description (Val.vStr "arrival") [] [] [] [] Val.vNone
      (fun _ => Except.ok "OneSentenceOnly") =
      Except.ok
        { location := Val.vStr "Unknown"
          description := Val.vStr "OneSentenceOnly"
          why_here := "You arrive in Unknown, ready for whatever awaits." } :=
  generate_success_single_sentence (Val.vStr "arrival") [] [] [] [] Val.vNone
    default_scene_context "OneSentenceOnly" (by rfl) ⟨_, rfl⟩ (by decide)

/-- C5: the experience tier is "inexperienced" for level ≤ 3, "seasoned"
for 4 ≤ level ≤ 7, and "legendary" for level ≥ 8. -/
theorem experience_tier_thresholds (n : Int) :
    (n ≤ 3 → experience_level_of (Val.vInt n) = .ok "inexperienced") ∧
    (4 ≤ n → n ≤ 7 → experience_level_of (Val.vInt n) = .ok "seasoned") ∧
    (8 ≤ n → experience_level_of (Val.vInt n) = .ok "legendary") := by
  refine ⟨fun h => ?_, fun h4 h7 => ?_, fun h8 => ?_⟩
  · simp only [experience_level_of, pyLeInt]
    rw [decide_eq_true h]
  · have h3 : ¬ n ≤ 3 := by omega
    simp only [experience_level_of, pyLeInt]
    rw [decide_eq_false h3, decide_eq_true h7]
  · have h3 : ¬ n ≤ 3 := by omega
    have h7 : ¬ n ≤ 7 := by omega
    simp only [experience_level_of, pyLeInt]
    rw [decide_eq_false h3, decide_eq_false h7]

/-- C5 witness: levels 1, 3, 4, 5 and 10. -/
theorem experience_tier_thresholds_witness :
    experience_level_of (Val.vInt 1) = .ok "inexperienced" ∧
    experience_level_of (Val.vInt 3) = .ok "inexperienced" ∧
    experience_level_of (Val.vInt 4) = .ok "seasoned" ∧
    experience_level_of (Val.vInt 5) = .ok "seasoned" ∧
    experience_level_of (Val.vInt 10) = .ok "legendary" :=
  ⟨(experience_tier_thresholds 1).1 (by decide),
   (experience_tier_thresholds 3).1 (by decide),
   (experience_tier_thresholds 4).2.1 (by decide) (by decide),
   (experience_tier_thresholds 5).2.1 (by decide) (by decide),
   (experience_tier_thresholds 10).2.2 (by decide)⟩

/-- C6: when the two hostility flags (defaulting to false when absent) are
booleans, the derived `is_wanted` is their disjunction. -/
theorem is_wanted_or_of_flags
    (loc ch ws bp : PyDict) (qh : Val) (ctx : SceneContext) (g c : Bool)
    (hctx : extract_scene_context loc ch ws bp qh = .ok ctx)
    (hg : pyGet ws "guards_hostile" (Val.vBool false) = Val.vBool g)
    (hc : pyGet ws "city_hostile" (Val.vBool false) = Val.vBool c) :
    ctx.is_wanted = Val.vBool (g || c) := by
  obtain ⟨_, _, hw⟩ := extract_ok_fields hctx
  rw [hw, hg, hc]
  cases g <;> cases c <;> rfl

/-- C6 witness: a world state with `guards_hostile = true` and an absent
`city_hostile`. -/
theorem is_wanted_or_of_flags_witness :
    ({ default_scene_context with is_wanted := Val.vBool true } : SceneContext).is_wanted =
      Val.vBool (true || false) :=
  is_wanted_or_of_flags [] [] [("guards_hostile", Val.vBool true)] [] Val.vNone
    { default_scene_context with is_wanted := Val.vBool true } true false
    (by rfl) (by rfl) (by rfl)

/-- C7: the rendered prompt is unchanged when quest hooks and early signs
are truncated to their first 2 entries and signature products to their
first 3 (i.e. only those entries contribute), and an empty
signature-product list renders as the literal "various goods". -/
theorem prompt_truncation_limits
    (st ln lr ls cn lvl bg cls tod w iw rep : Val) (ps es qs : List Val) :
    build_scene_generator_prompt st ln lr ls (Val.vList ps) cn lvl bg cls tod w iw rep
        (Val.vList es) (Val.vList qs) =
      build_scene_generator_prompt st ln lr ls (Val.vList (ps.take 3)) cn lvl bg cls tod w
        iw rep (Val.vList (es.take 2)) (Val.vList (qs.take 2)) ∧
    products_text_of (Val.vList []) = .ok "various goods" := by
  refine ⟨?_, rfl⟩
  unfold build_scene_generator_prompt
  rw [hooks_text_take, products_text_take, early_signs_block_take,
    truthy_vList_take 2 (by omega) qs, truthy_vList_take 2 (by omega) es]

/-- C8: when every optional field is absent from the four context mappings
and no quest-hook list is supplied, extraction raises nothing and every
field receives its literal default. -/
theorem absent_fields_take_defaults
    (loc ch ws bp : PyDict) (qh : Val)
    (h1 : loc.lookup "name" = none) (h2 : loc.lookup "role" = none)
    (h3 : loc.lookup "summary" = none) (h4 : loc.lookup "signature_products" = none)
    (h5 : ch.lookup "name" = none) (h6 : ch.lookup "level" = none)
    (h7 : ch.lookup "background" = none) (h8 : ch.lookup "class" = none)
    (h9 : ch.lookup "class_" = none) (h10 : ch.lookup "reputation" = none)
    (h11 : ws.lookup "time_of_day" = none) (h12 : ws.lookup "weather" = none)
    (h13 : ws.lookup "guards_hostile" = none) (h14 : ws.lookup "city_hostile" = none)
    (h15 : bp.lookup "global_threat" = none) (h16 : qh = Val.vNone) :
    extract_scene_context loc ch ws bp qh = .ok default_scene_context := by
  subst h16
  simp only [extract_scene_context, pyGet, h1, h2, h3, h4, h5, h6, h7, h8, h9, h10,
    h11, h12, h13, h14, h15]
  rfl

/-- C8 witness: entirely empty mappings. -/
theorem absent_fields_take_defaults_witness :
    extract_scene_context [] [] [] [] Val.vNone = .ok default_scene_context :=
  absent_fields_take_defaults [] [] [] [] Val.vNone
    rfl rfl rfl rfl rfl rfl rfl rfl rfl rfl rfl rfl rfl rfl rfl rfl

/-- C9: the generator's behaviour depends on the remote oracle only through
its value at the single request built from the rendered prompt (so exactly
one call, never a retry, decides the outcome), and that request carries
exactly two messages — the system message equal to the rendered prompt and
the user message naming the scene type and location — temperature 0.7,
a 300-token cap, and the fixed model identifier "gpt-4o-mini". -/
theorem single_remote_call_parameters
    (st : Val) (loc ch ws bp : PyDict) (qh : Val) (ctx : SceneContext) (p : String)
    (hctx : extract_scene_context loc ch ws bp qh = .ok ctx)
    (hp : build_prompt_of st ctx = .ok p) :
    (∀ oracle1 oracle2 : ChatRequest → Except Unit String,
      oracle1 (scene_request p st ctx.location_name) =
        oracle2 (scene_request p st ctx.location_name) →
      generate_scene_description st loc ch ws bp qh oracle1 =
        generate_scene_description st loc ch ws bp qh oracle2) ∧
    (scene_request p st ctx.location_name).model = "gpt-4o-mini" ∧
    (scene_request p st ctx.location_name).temperature = 7/10 ∧
    (scene_request p st ctx.location_name).max_tokens = 300 ∧
    (scene_request p st ctx.location_name).messages =
      [("system", p),
       ("user", "Generate scene description for " ++ pyStr st ++ " at " ++ pyStr ctx.location_name)] ∧
    (scene_request p st ctx.location_name).messages.length = 2 := by
  refine ⟨?_, rfl, rfl, rfl, rfl, rfl⟩
  intro o1 o2 h
  simp only [generate_scene_description, hctx, hp, h]

/-- C9 witness: the request for an all-defaults context. -/
theorem single_remote_call_parameters_witness :
    (scene_request scene_prompt_default (Val.vStr "arrival") (Val.vStr "Unknown")).model =
      "gpt-4o-mini" ∧
    (scene_request scene_prompt_default (Val.vStr "arrival") (Val.vStr "Unknown")).temperature =
      7/10 ∧
    (scene_request scene_prompt_default (Val.vStr "arrival") (Val.vStr "Unknown")).max_tokens =
      300 ∧
    (scene_request scene_prompt_default (Val.vStr "arrival") (Val.vStr "Unknown")).messages =
      [("system", scene_prompt_default),
       ("user", "Generate scene description for arrival at Unknown")] ∧
    (scene_request scene_prompt_default (Val.vStr "arrival") (Val.vStr "Unknown")).messages.length =
      2 :=
  have h := single_remote_call_parameters (Val.vStr "arrival") [] [] [] [] Val.vNone
    default_scene_context scene_prompt_default (by rfl) (by rfl)
  ⟨h.2.1, h.2.2.1, h.2.2.2.1, h.2.2.2.2.1, h.2.2.2.2.2⟩

/-- C10: field extraction and prompt construction run before the `try`
block, so an exception raised there (e.g. a level value that cannot be
compared with an int, or a quest-hook type without string methods)
propagates to the caller as an error instead of producing the fallback
result, whatever the remote oracle would have answered. -/
theorem pre_try_errors_propagate
    (st : Val) (loc ch ws bp : PyDict) (qh : Val)
    (oracle : ChatRequest → Except Unit String) (e : String)
    (h : extract_scene_context loc ch ws bp qh = .error e ∨
      ∃ ctx, extract_scene_context loc ch ws bp qh = .ok ctx ∧
        build_prompt_of st ctx = .error e) :
    generate_scene_description st loc ch ws bp qh oracle = .error e := by
  rcases h with h | ⟨ctx, hctx, hb⟩
  · simp only [generate_scene_description, h]
  · simp only [generate_scene_description, hctx, hb]

/-- C10 witness: a string-valued character level makes the pre-try level
comparison raise, and the error propagates even though the remote oracle
would have returned parseable text. -/
theorem pre_try_errors_propagate_witness :
    generate_scene_description (Val.vStr "arrival") [] [("level", Val.vStr "high")] [] []
      Val.vNone (fun _ => Except.ok "Fine. Text.") =
      Except.error "TypeError: unsupported comparison between str and int" :=
  pre_try_errors_propagate _ _ _ _ _ _ _ _
    (Or.inr ⟨{ default_scene_context with character_level := Val.vStr "high" }, rfl, rfl⟩)

end SceneGen
